import Mathlib

/-!
# Shallow embedding of the BERT ONNX inference server (`app/inference_server.py`)

This file embeds the instrumented inference pipeline of the repository:
the Prometheus metric families, the `BertInferenceEngine` class
(`load`, `tokenize`, `infer`), and the `predict` request handler,
together with the theorems that settle the specification claims.

Modelling conventions:
* Machine floats used for latency and for embedding values are abstracted:
  latency durations are opaque `Nat` parameters (the code only measures
  wall-clock time and multiplies it by 1000), and the value type of the
  model's output tensors is a type parameter `α` (the claims are about
  shapes and metadata, never about the numeric values).  The random filler
  `np.random.randn(...)` of mock mode is modelled by replicating an opaque
  `fill : α` value in exactly the shape the code requests.
* Python exceptions are modelled by the `PyExn` type and fallible code by
  `Except PyExn`.  A `raise` inside `predict`/`infer` is an `Except.error`;
  FastAPI's mapping of exceptions to HTTP statuses is `httpStatusOf`.
* Python dictionaries holding the three tensors are association lists
  (`InputsDict`); `d[k]` is `dictGet` with a `KeyError` on a missing key,
  and Python truthiness of `dict`/`list`/`str` values is non-emptiness.
* The external collaborators (HuggingFace tokenizer, ONNX runtime session)
  are opaque function parameters; the shape contract a real BERT session
  obeys is stated separately where a claim needs it.
-/

namespace InferenceServer

/-- Python exceptions that the embedded code can raise. -/
inductive PyExn where
  /-- `KeyError` from a missing dictionary key. -/
  | keyError (key : String)
  /-- FastAPI `HTTPException(status_code, detail)`. -/
  | httpException (status : Nat) (detail : String)
  /-- `ValueError`, e.g. from a negative Prometheus counter increment. -/
  | valueError (msg : String)
  /-- Any other exception raised by an external collaborator. -/
  | other (msg : String)
deriving DecidableEq

/-- FastAPI surfaces an `HTTPException` with its own status code and any
other unhandled exception as a 500 Internal Server Error. -/
def httpStatusOf : PyExn → Nat
  | .httpException status _ => status
  | _ => 500

/-- An HTTP status in the 4xx range is a client error. -/
def isClientError (e : PyExn) : Bool :=
  400 ≤ httpStatusOf e && httpStatusOf e < 500

/-- A 2-dimensional tensor (list of rows), as produced by `tolist()` /
JSON nested arrays. -/
abbrev Tensor2 (α : Type) := List (List α)

/-- A 3-dimensional tensor. -/
abbrev Tensor3 (α : Type) := List (List (List α))

/-- Sum of all entries of a 2-d integer tensor: `int(np.sum(t))`. -/
def sum2 (t : Tensor2 Int) : Int :=
  (t.map (fun row => row.sum)).sum

/-- A Python `dict` mapping tensor names to 2-d integer tensors
(the payload of the pre-tokenized `inputs` field and the argument of
`BertInferenceEngine.infer`). -/
abbrev InputsDict := List (String × Tensor2 Int)

/-- Dictionary lookup `d[k]` (first binding wins, like a Python dict with
unique keys); `none` corresponds to a `KeyError`. -/
def dictGet (d : InputsDict) (k : String) : Option (Tensor2 Int) :=
  (d.find? (fun p => p.1 = k)).map (fun p => p.2)

/-- The three-key dictionary both normalizer paths hand to the executor. -/
def mkInputs (ids mask tti : Tensor2 Int) : InputsDict :=
  [("input_ids", ids), ("attention_mask", mask), ("token_type_ids", tti)]

/-- Bool test that a 2-d tensor has shape `[b, s]`. -/
def isShape2 (t : Tensor2 α) (b s : Nat) : Bool :=
  t.length = b && t.all (fun row => row.length = s)

/-- Bool test that a 3-d tensor has shape `[b, s, h]`. -/
def isShape3 (t : Tensor3 α) (b s h : Nat) : Bool :=
  t.length = b && t.all (fun m => m.length = s && m.all (fun row => row.length = h))

/-- The leading dimensions of a 3-d tensor, read off its first entries. -/
def dims3 (t : Tensor3 α) : Nat × Nat × Nat :=
  (t.length, (t.head?.getD []).length, ((t.head?.getD []).head?.getD []).length)

/-! ## Metrics Recorder

Process-wide metric families, each labeled at minimum by model name.
Counters/histograms are modelled exactly (`Nat` totals, lists of
observations); gauges are `Int` (inc/dec) or `Option Nat` (set). -/

/-- The process-wide Prometheus metric state: one field per metric family
declared at the top of `inference_server.py`. -/
structure Metrics where
  /-- `inference_requests_total`, labels `(status, model)`. -/
  requestCount : String → String → Nat
  /-- `inference_request_duration_seconds` observations, label `model`. -/
  latencyObs : String → List Nat
  /-- `inference_tokens_processed_total`, label `model`. -/
  tokensProcessed : String → Nat
  /-- `inference_batch_size` observations, label `model`. -/
  batchSizeObs : String → List Nat
  /-- `inference_model_load_seconds` gauge, label `model`. -/
  modelLoadTime : String → Option Nat
  /-- `inference_active_requests` gauge, label `model`. -/
  activeRequests : String → Int
  /-- `inference_gpu_memory_bytes` gauge, labels `(model, device)`;
  declared but never updated by the pipeline. -/
  gpuMemoryUsed : String → String → Int
  /-- `inference_queue_size` gauge, label `model`; declared but never
  updated by the pipeline. -/
  queueSize : String → Int

/-- The freshly-registered metric state at process start. -/
def Metrics.init : Metrics where
  requestCount := fun _ _ => 0
  latencyObs := fun _ => []
  tokensProcessed := fun _ => 0
  batchSizeObs := fun _ => []
  modelLoadTime := fun _ => none
  activeRequests := fun _ => 0
  gpuMemoryUsed := fun _ _ => 0
  queueSize := fun _ => 0

/-- `REQUEST_COUNT.labels(status=..., model=...).inc()`. -/
def Metrics.incRequestCount (m : Metrics) (status model : String) : Metrics :=
  { m with requestCount := fun st md =>
      if st = status ∧ md = model then m.requestCount st md + 1 else m.requestCount st md }

/-- `REQUEST_LATENCY.labels(model=...).observe(v)`. -/
def Metrics.observeLatency (m : Metrics) (model : String) (v : Nat) : Metrics :=
  { m with latencyObs := fun md =>
      if md = model then v :: m.latencyObs md else m.latencyObs md }

/-- `TOKENS_PROCESSED.labels(model=...).inc(v)` for a non-negative `v`. -/
def Metrics.incTokens (m : Metrics) (model : String) (v : Nat) : Metrics :=
  { m with tokensProcessed := fun md =>
      if md = model then m.tokensProcessed md + v else m.tokensProcessed md }

/-- `BATCH_SIZE.labels(model=...).observe(v)`. -/
def Metrics.observeBatch (m : Metrics) (model : String) (v : Nat) : Metrics :=
  { m with batchSizeObs := fun md =>
      if md = model then v :: m.batchSizeObs md else m.batchSizeObs md }

/-- `MODEL_LOAD_TIME.labels(model=...).set(v)`. -/
def Metrics.setLoadTime (m : Metrics) (model : String) (v : Nat) : Metrics :=
  { m with modelLoadTime := fun md =>
      if md = model then some v else m.modelLoadTime md }

/-- `ACTIVE_REQUESTS.labels(model=...).inc()`. -/
def Metrics.incActive (m : Metrics) (model : String) : Metrics :=
  { m with activeRequests := fun md =>
      if md = model then m.activeRequests md + 1 else m.activeRequests md }

/-- `ACTIVE_REQUESTS.labels(model=...).dec()`. -/
def Metrics.decActive (m : Metrics) (model : String) : Metrics :=
  { m with activeRequests := fun md =>
      if md = model then m.activeRequests md - 1 else m.activeRequests md }

/-! ## External collaborators -/

/-- The HuggingFace tokenizer, an opaque external collaborator: given the
texts and the `max_length`, it produces the `input_ids`, `attention_mask`
and `token_type_ids` arrays. -/
structure Tokenizer where
  encode : List String → Nat → Tensor2 Int × Tensor2 Int × Tensor2 Int

/-- An ONNX runtime session, an opaque external collaborator: `run` takes
the three named input tensors and either raises or returns
`(outputs[0], outputs[1] when len(outputs) > 1)`. -/
structure Session (α : Type) where
  run : Tensor2 Int → Tensor2 Int → Tensor2 Int →
    Except PyExn (Tensor3 α × Option (Tensor2 α))

/-! ## Data model -/

/-- Environment-derived configuration, read once at startup. -/
structure Config where
  /-- `MAX_SEQUENCE_LENGTH` (default 512). -/
  maxSeqLen : Nat

/-- The `BertInferenceEngine` object: model lifecycle state plus the
fixed model name used to label every metric sample. -/
structure BertInferenceEngine (α : Type) where
  model_path : String
  model_name : String := "bert-base-uncased"
  tokenizer : Option Tokenizer := none
  session : Option (Session α) := none
  execution_provider : String := "CUDAExecutionProvider"

/-- The body of the `POST /v1/models/bert:predict` request
(`InferenceRequest`): all three input shapes optional. -/
structure InferenceRequest where
  text : Option String := none
  texts : Option (List String) := none
  inputs : Option InputsDict := none
  include_embeddings : Bool := false

/-- The dictionary `BertInferenceEngine.infer` returns on success. -/
structure InferResult (α : Type) where
  last_hidden_state : Tensor3 α
  pooler_output : Option (Tensor2 α)
  latency_ms : Nat
  batch_size : Nat
  tokens_processed : Int

/-- The `InferenceResponse` payload of the predict endpoint. -/
structure InferenceResponse (α : Type) where
  embeddings : Option (Tensor3 α)
  pooler_output : Option (Tensor2 α)
  latency_ms : Nat
  batch_size : Nat
  tokens_processed : Int

/-! ## Model Lifecycle Manager: `BertInferenceEngine.load` -/

/-- The outside-world results `load` consumes: whether the tokenizer
resolution succeeds, whether `os.path.exists(model_path)` holds, what
`ort.InferenceSession(...)` would produce, and the measured load
duration. -/
structure LoadEnv (α : Type) where
  tokenizerResult : Except PyExn Tokenizer
  fileExists : Bool
  sessionResult : Except PyExn (Session α)
  loadDuration : Nat

/-- `BertInferenceEngine.load`: resolve the tokenizer (fatal on failure),
then construct a session when the model file exists, or fall into mock
mode (`session = None`) with a warning when it does not; in either
non-raising case record the load-time gauge. -/
def load (eng : BertInferenceEngine α) (env : LoadEnv α) (m : Metrics) :
    Except PyExn (BertInferenceEngine α) × Metrics :=
  match env.tokenizerResult with
  | .error e => (.error e, m)
  | .ok tok =>
    if env.fileExists then
      match env.sessionResult with
      | .error e => (.error e, m)
      | .ok s =>
        (.ok { eng with tokenizer := some tok, session := some s },
         m.setLoadTime eng.model_name env.loadDuration)
    else
      (.ok { eng with tokenizer := some tok, session := none },
       m.setLoadTime eng.model_name env.loadDuration)

/-! ## Input Normalizer -/

/-- `BertInferenceEngine.tokenize`: call the tokenizer (a `TypeError` if
the engine was never loaded and it is still `None`) and wrap the three
arrays in the canonical three-key dictionary. -/
def tokenize (eng : BertInferenceEngine α) (texts : List String) (maxLen : Nat) :
    Except PyExn InputsDict :=
  match eng.tokenizer with
  | none => .error (.other "TypeError: NoneType object is not callable")
  | some tok =>
    match tok.encode texts maxLen with
    | (ids, mask, tti) => .ok (mkInputs ids mask tti)

/-- Python truthiness of the optional `inputs` dict: present and
non-empty. -/
def truthyInputs : Option InputsDict → Option InputsDict
  | some d => if d.isEmpty then none else some d
  | none => none

/-- Python truthiness of the optional `texts` list: present and
non-empty. -/
def truthyTexts : Option (List String) → Option (List String)
  | some ts => if ts.isEmpty then none else some ts
  | none => none

/-- Python truthiness of the optional `text` string: present and
non-empty. -/
def truthyText : Option String → Option String
  | some t => if t = "" then none else some t
  | none => none

/-- The input-shape selection of `predict` (lines 300–314): the
`if request.inputs / elif request.texts / elif request.text / else 400`
cascade, with each pre-tokenized key lookup able to raise `KeyError`. -/
def selectInputs (cfg : Config) (eng : BertInferenceEngine α)
    (req : InferenceRequest) : Except PyExn InputsDict :=
  match truthyInputs req.inputs with
  | some d =>
    match dictGet d "input_ids" with
    | none => .error (.keyError "input_ids")
    | some ids =>
      match dictGet d "attention_mask" with
      | none => .error (.keyError "attention_mask")
      | some mask =>
        match dictGet d "token_type_ids" with
        | none => .error (.keyError "token_type_ids")
        | some tti => .ok (mkInputs ids mask tti)
  | none =>
    match truthyTexts req.texts with
    | some ts => tokenize eng ts cfg.maxSeqLen
    | none =>
      match truthyText req.text with
      | some t => tokenize eng [t] cfg.maxSeqLen
      | none => .error (.httpException 400 "No input provided")

/-- The first of the three required tensor keys missing from a
pre-tokenized `inputs` dict, in the order `predict` looks them up
(lines 303–305); `none` when all three are present. -/
def firstMissingKey (d : InputsDict) : Option String :=
  match dictGet d "input_ids" with
  | none => some "input_ids"
  | some _ =>
    match dictGet d "attention_mask" with
    | none => some "attention_mask"
    | some _ =>
      match dictGet d "token_type_ids" with
      | none => some "token_type_ids"
      | some _ => none

/-! ## Inference Executor: `BertInferenceEngine.infer` -/

/-- The `try:` body of `infer` (lines 182–223): compute `batch_size` and
`tokens` from the input dictionary, execute the session (or synthesize a
mock response of shape `[batch_size, MAX_SEQUENCE_LENGTH, 768]` /
`[batch_size, 768]`), then record the success metrics and build the
result dictionary.  `fill` abstracts the random filler values and
`elapsed` the measured wall-clock duration.  A negative total attention
mask would make the Prometheus counter increment raise `ValueError`. -/
def inferTry (cfg : Config) (fill : α) (eng : BertInferenceEngine α)
    (elapsed : Nat) (m : Metrics) (inputs : InputsDict) :
    Except PyExn (InferResult α) × Metrics :=
  match dictGet inputs "input_ids" with
  | none => (.error (.keyError "input_ids"), m)
  | some ids =>
    match dictGet inputs "attention_mask" with
    | none => (.error (.keyError "attention_mask"), m)
    | some mask =>
      let batch_size := ids.length
      let tokens : Int := sum2 mask
      let exec : Except PyExn (Tensor3 α × Option (Tensor2 α)) :=
        match eng.session with
        | some s =>
          match dictGet inputs "token_type_ids" with
          | none => .error (.keyError "token_type_ids")
          | some tti => s.run ids mask tti
        | none =>
          .ok (List.replicate batch_size
                 (List.replicate cfg.maxSeqLen (List.replicate 768 fill)),
               some (List.replicate batch_size (List.replicate 768 fill)))
      match exec with
      | .error e => (.error e, m)
      | .ok (lhs, pooler) =>
        let m1 := (m.incRequestCount "success" eng.model_name).observeLatency
          eng.model_name elapsed
        if tokens < 0 then
          (.error (.valueError "Counters can only be incremented by non-negative amounts."), m1)
        else
          (.ok { last_hidden_state := lhs, pooler_output := pooler,
                 latency_ms := elapsed * 1000, batch_size := batch_size,
                 tokens_processed := tokens },
           (m1.incTokens eng.model_name tokens.toNat).observeBatch
             eng.model_name batch_size)

/-- `BertInferenceEngine.infer` (lines 177–230): increment the
active-requests gauge, run the `try:` body, on any exception increment the
error counter and re-raise it unchanged, and in all cases (`finally:`)
decrement the active-requests gauge. -/
def infer (cfg : Config) (fill : α) (eng : BertInferenceEngine α)
    (elapsed : Nat) (m : Metrics) (inputs : InputsDict) :
    Except PyExn (InferResult α) × Metrics :=
  let m0 := m.incActive eng.model_name
  match inferTry cfg fill eng elapsed m0 inputs with
  | (.ok r, m1) => (.ok r, m1.decActive eng.model_name)
  | (.error e, m1) =>
    (.error e, (m1.incRequestCount "error" eng.model_name).decActive eng.model_name)

/-! ## Request Handler: `predict` -/

/-- The `POST /v1/models/bert:predict` handler (lines 294–324): 503 when
the engine was never initialized, input-shape selection, executor call,
and construction of the `InferenceResponse` payload (embeddings only when
`include_embeddings` is set). -/
def predict (cfg : Config) (fill : α) (engine : Option (BertInferenceEngine α))
    (elapsed : Nat) (m : Metrics) (req : InferenceRequest) :
    Except PyExn (InferenceResponse α) × Metrics :=
  match engine with
  | none => (.error (.httpException 503 "Model not loaded"), m)
  | some eng =>
    match selectInputs cfg eng req with
    | .error e => (.error e, m)
    | .ok inputs =>
      match infer cfg fill eng elapsed m inputs with
      | (.error e, m1) => (.error e, m1)
      | (.ok r, m1) =>
        (.ok { embeddings := if req.include_embeddings then some r.last_hidden_state else none,
               pooler_output := r.pooler_output,
               latency_ms := r.latency_ms,
               batch_size := r.batch_size,
               tokens_processed := r.tokens_processed }, m1)

/-! ## Helper lemmas -/

@[simp] theorem incRequestCount_activeRequests (m : Metrics) (st md : String) :
    (m.incRequestCount st md).activeRequests = m.activeRequests := rfl

@[simp] theorem observeLatency_activeRequests (m : Metrics) (md : String) (v : Nat) :
    (m.observeLatency md v).activeRequests = m.activeRequests := rfl

@[simp] theorem incTokens_activeRequests (m : Metrics) (md : String) (v : Nat) :
    (m.incTokens md v).activeRequests = m.activeRequests := rfl

@[simp] theorem observeBatch_activeRequests (m : Metrics) (md : String) (v : Nat) :
    (m.observeBatch md v).activeRequests = m.activeRequests := rfl

/-- The `try:` body of `infer` never touches the active-requests gauge. -/
theorem inferTry_activeRequests (cfg : Config) (fill : α)
    (eng : BertInferenceEngine α) (elapsed : Nat) (m : Metrics)
    (inputs : InputsDict) :
    (inferTry cfg fill eng elapsed m inputs).2.activeRequests = m.activeRequests := by
  unfold inferTry
  dsimp only
  repeat' split
  all_goals rfl

/-! ## Claims -/

/-- Claim C1: for every call to the executor's `infer`, the
active-requests gauge (at every label, in particular the model's)
returns to its pre-call value when the call completes, on every exit
path — loaded-session execution, mock-mode execution, or a raised
exception: the entry increment is matched by a guaranteed decrement. -/
theorem infer_restores_active_requests_gauge (cfg : Config) (fill : α)
    (eng : BertInferenceEngine α) (elapsed : Nat) (m : Metrics)
    (inputs : InputsDict) (l : String) :
    (infer cfg fill eng elapsed m inputs).2.activeRequests l =
      m.activeRequests l := by
  unfold infer
  dsimp only
  rcases hE : inferTry cfg fill eng elapsed (m.incActive eng.model_name) inputs
    with ⟨r, m1⟩
  have h := inferTry_activeRequests cfg fill eng elapsed
    (m.incActive eng.model_name) inputs
  rw [hE] at h
  dsimp only at h
  cases r <;>
    simp only [Metrics.decActive, Metrics.incActive, incRequestCount_activeRequests, h] <;>
    split <;> simp_all

/-- On a successful `infer`, the returned `tokens_processed` is the sum of
the `attention_mask` entries and `batch_size` is the row count of
`input_ids`. -/
theorem inferTry_ok_fields (cfg : Config) (fill : α)
    (eng : BertInferenceEngine α) (elapsed : Nat) (m : Metrics)
    (inputs : InputsDict) (ids mask : Tensor2 Int)
    (r : InferResult α) (m2 : Metrics)
    (hids : dictGet inputs "input_ids" = some ids)
    (hmask : dictGet inputs "attention_mask" = some mask)
    (hok : inferTry cfg fill eng elapsed m inputs = (.ok r, m2)) :
    r.tokens_processed = sum2 mask ∧ r.batch_size = ids.length := by
  unfold inferTry at hok
  rw [hids, hmask] at hok
  dsimp only at hok
  split at hok
  · simp at hok
  · split at hok
    · simp at hok
    · rw [Prod.ext_iff] at hok
      simp only [Except.ok.injEq] at hok
      rw [← hok.1]
      exact ⟨rfl, rfl⟩

/-- Same fact lifted through `infer`'s gauge/counter wrapper. -/
theorem infer_ok_fields (cfg : Config) (fill : α)
    (eng : BertInferenceEngine α) (elapsed : Nat) (m : Metrics)
    (inputs : InputsDict) (ids mask : Tensor2 Int)
    (r : InferResult α) (m2 : Metrics)
    (hids : dictGet inputs "input_ids" = some ids)
    (hmask : dictGet inputs "attention_mask" = some mask)
    (hok : infer cfg fill eng elapsed m inputs = (.ok r, m2)) :
    r.tokens_processed = sum2 mask ∧ r.batch_size = ids.length := by
  unfold infer at hok
  dsimp only at hok
  rcases hE : inferTry cfg fill eng elapsed (m.incActive eng.model_name) inputs
    with ⟨r', m1⟩
  rw [hE] at hok
  cases r' with
  | ok r' =>
    rw [Prod.ext_iff] at hok
    simp only [Except.ok.injEq] at hok
    obtain ⟨h1, h2⟩ := hok
    subst h1
    exact inferTry_ok_fields cfg fill eng elapsed _ inputs ids mask _ m1
      hids hmask hE
  | error e => simp at hok

/-- Claim C2: for every tokenized batch accepted by the executor,
`infer` returns `tokens_processed` equal to the sum of all
`attention_mask` entries and `batch_size` equal to the row count of
`input_ids`; and whenever `predict` hands that batch to the executor,
the same two values appear in the HTTP response payload. -/
theorem infer_token_and_batch_counts (cfg : Config) (fill : α)
    (eng : BertInferenceEngine α) (elapsed : Nat) (m : Metrics)
    (inputs : InputsDict) (ids mask : Tensor2 Int)
    (r : InferResult α) (m2 : Metrics)
    (hids : dictGet inputs "input_ids" = some ids)
    (hmask : dictGet inputs "attention_mask" = some mask)
    (hok : infer cfg fill eng elapsed m inputs = (.ok r, m2)) :
    (r.tokens_processed = sum2 mask ∧ r.batch_size = ids.length) ∧
    ∀ (req : InferenceRequest) (resp : InferenceResponse α) (m3 : Metrics),
      selectInputs cfg eng req = .ok inputs →
      predict cfg fill (some eng) elapsed m req = (.ok resp, m3) →
      resp.tokens_processed = sum2 mask ∧ resp.batch_size = ids.length := by
  have hfields := infer_ok_fields cfg fill eng elapsed m inputs ids mask r m2
    hids hmask hok
  refine ⟨hfields, ?_⟩
  intro req resp m3 hsel hpred
  unfold predict at hpred
  dsimp only at hpred
  rw [hsel] at hpred
  dsimp only at hpred
  rw [hok] at hpred
  dsimp only at hpred
  rw [Prod.ext_iff] at hpred
  simp only [Except.ok.injEq] at hpred
  rw [← hpred.1]
  exact hfields

/-- Witness for C2 at a concrete mock-mode call: a 1×2 batch with a full
attention mask yields `tokens_processed = 2` and `batch_size = 1`. -/
theorem infer_token_and_batch_counts_witness :
    (({ last_hidden_state :=
          List.replicate 1 (List.replicate 4 (List.replicate 768 (0 : Int))),
        pooler_output := some (List.replicate 1 (List.replicate 768 (0 : Int))),
        latency_ms := 1000, batch_size := 1,
        tokens_processed := 2 } : InferResult Int).tokens_processed =
       sum2 [[1, 1]] ∧
     ({ last_hidden_state :=
          List.replicate 1 (List.replicate 4 (List.replicate 768 (0 : Int))),
        pooler_output := some (List.replicate 1 (List.replicate 768 (0 : Int))),
        latency_ms := 1000, batch_size := 1,
        tokens_processed := 2 } : InferResult Int).batch_size =
       [[(101 : Int), 102]].length) :=
  (infer_token_and_batch_counts ⟨4⟩ 0 { model_path := "/m" } 1 Metrics.init
    (mkInputs [[101, 102]] [[1, 1]] [[0, 0]]) [[101, 102]] [[1, 1]] _ _
    rfl rfl rfl).1

/-- When the loaded session raises, the `try:` body of `infer` propagates
exactly that exception and leaves the metrics untouched. -/
theorem inferTry_run_error (cfg : Config) (fill : α)
    (eng : BertInferenceEngine α) (elapsed : Nat) (m : Metrics)
    (inputs : InputsDict) (ids mask tti : Tensor2 Int) (s : Session α)
    (exn : PyExn)
    (hids : dictGet inputs "input_ids" = some ids)
    (hmask : dictGet inputs "attention_mask" = some mask)
    (htti : dictGet inputs "token_type_ids" = some tti)
    (hs : eng.session = some s)
    (hrun : s.run ids mask tti = .error exn) :
    inferTry cfg fill eng elapsed m inputs = (.error exn, m) := by
  unfold inferTry
  simp only [hids, hmask, hs, htti, hrun]

/-- Claim C3: on any call to `infer` in which the loaded session's
execution raises, the executor increments the error-outcome request
counter labeled by the model name, re-raises the very same exception
unchanged, and still performs the active-requests decrement (the gauge
is back at its pre-call value). -/
theorem infer_error_counter_and_reraise (cfg : Config) (fill : α)
    (eng : BertInferenceEngine α) (elapsed : Nat) (m : Metrics)
    (inputs : InputsDict) (ids mask tti : Tensor2 Int) (s : Session α)
    (exn : PyExn)
    (hids : dictGet inputs "input_ids" = some ids)
    (hmask : dictGet inputs "attention_mask" = some mask)
    (htti : dictGet inputs "token_type_ids" = some tti)
    (hs : eng.session = some s)
    (hrun : s.run ids mask tti = .error exn) :
    (infer cfg fill eng elapsed m inputs).1 = .error exn ∧
    (infer cfg fill eng elapsed m inputs).2.requestCount "error" eng.model_name =
      m.requestCount "error" eng.model_name + 1 ∧
    (infer cfg fill eng elapsed m inputs).2.activeRequests eng.model_name =
      m.activeRequests eng.model_name := by
  have hbody := inferTry_run_error cfg fill eng elapsed
    (m.incActive eng.model_name) inputs ids mask tti s exn
    hids hmask htti hs hrun
  unfold infer
  dsimp only
  rw [hbody]
  refine ⟨rfl, ?_, ?_⟩
  · simp [Metrics.decActive, Metrics.incRequestCount, Metrics.incActive]
  · simp [Metrics.decActive, Metrics.incRequestCount, Metrics.incActive]

/-- Witness for C3 at a concrete call against a session that always
raises: the exception comes back unchanged, the error counter goes from
0 to 1, and the gauge is back at 0. -/
theorem infer_error_counter_and_reraise_witness :
    (infer ⟨4⟩ (0 : Int)
        { model_path := "/m", session := some ⟨fun _ _ _ => .error (.other "boom")⟩ }
        1 Metrics.init (mkInputs [[101, 102]] [[1, 1]] [[0, 0]])).1 =
      .error (.other "boom") ∧
    (infer ⟨4⟩ (0 : Int)
        { model_path := "/m", session := some ⟨fun _ _ _ => .error (.other "boom")⟩ }
        1 Metrics.init (mkInputs [[101, 102]] [[1, 1]] [[0, 0]])).2.requestCount
        "error" "bert-base-uncased" =
      Metrics.init.requestCount "error" "bert-base-uncased" + 1 ∧
    (infer ⟨4⟩ (0 : Int)
        { model_path := "/m", session := some ⟨fun _ _ _ => .error (.other "boom")⟩ }
        1 Metrics.init (mkInputs [[101, 102]] [[1, 1]] [[0, 0]])).2.activeRequests
        "bert-base-uncased" =
      Metrics.init.activeRequests "bert-base-uncased" :=
  infer_error_counter_and_reraise ⟨4⟩ 0
    { model_path := "/m", session := some ⟨fun _ _ _ => .error (.other "boom")⟩ }
    1 Metrics.init (mkInputs [[101, 102]] [[1, 1]] [[0, 0]])
    [[101, 102]] [[1, 1]] [[0, 0]] ⟨fun _ _ _ => .error (.other "boom")⟩
    (.other "boom") rfl rfl rfl rfl rfl

/-- Claim C8: when the model file is absent at the configured path (and
the tokenizer resolves), `load` does not fail: it produces an engine in
mock mode (`session = none`), and it still records the model-load-time
gauge sample keyed by the model name; the gauge is likewise recorded on
the successful loaded outcome. -/
theorem load_absent_file_mock_mode_and_gauge (eng : BertInferenceEngine α)
    (env : LoadEnv α) (m : Metrics) (tok : Tokenizer)
    (htok : env.tokenizerResult = .ok tok) :
    (env.fileExists = false →
      load eng env m =
        (.ok { eng with tokenizer := some tok, session := none },
         m.setLoadTime eng.model_name env.loadDuration) ∧
      (load eng env m).2.modelLoadTime eng.model_name = some env.loadDuration) ∧
    (∀ s : Session α, env.fileExists = true → env.sessionResult = .ok s →
      (load eng env m).2.modelLoadTime eng.model_name = some env.loadDuration) := by
  constructor
  · intro hfe
    constructor
    · unfold load
      rw [htok, hfe]
      simp
    · unfold load
      rw [htok, hfe]
      simp [Metrics.setLoadTime]
  · intro s hfe hs
    unfold load
    rw [htok, hfe, hs]
    simp [Metrics.setLoadTime]

/-- Witness for C8 at a concrete environment. -/
theorem load_absent_file_mock_mode_and_gauge_witness :
    (load (α := Int) { model_path := "/models/bert-base-uncased/model.onnx" }
        { tokenizerResult := .ok ⟨fun _ _ => ([], [], [])⟩, fileExists := false,
          sessionResult := .error (.other "unused"), loadDuration := 3 }
        Metrics.init).2.modelLoadTime "bert-base-uncased" = some 3 :=
  ((load_absent_file_mock_mode_and_gauge
      { model_path := "/models/bert-base-uncased/model.onnx" }
      { tokenizerResult := .ok ⟨fun _ _ => ([], [], [])⟩, fileExists := false,
        sessionResult := .error (.other "unused"), loadDuration := 3 }
      Metrics.init ⟨fun _ _ => ([], [], [])⟩ rfl).1 rfl).2

/-- An `infer` success comes from an `inferTry` success on the
gauge-incremented metric state, followed by the `finally:` decrement. -/
theorem infer_ok_inferTry (cfg : Config) (fill : α)
    (eng : BertInferenceEngine α) (elapsed : Nat) (m : Metrics)
    (inputs : InputsDict) (r : InferResult α) (m2 : Metrics)
    (hok : infer cfg fill eng elapsed m inputs = (.ok r, m2)) :
    ∃ m1, inferTry cfg fill eng elapsed (m.incActive eng.model_name) inputs =
      (.ok r, m1) ∧ m2 = m1.decActive eng.model_name := by
  unfold infer at hok
  dsimp only at hok
  rcases hE : inferTry cfg fill eng elapsed (m.incActive eng.model_name) inputs
    with ⟨r', m1⟩
  rw [hE] at hok
  cases r' with
  | ok r' =>
    rw [Prod.ext_iff] at hok
    simp only [Except.ok.injEq] at hok
    obtain ⟨h1, h2⟩ := hok
    subst h1
    exact ⟨m1, rfl, h2.symm⟩
  | error e => simp at hok

/-- A batch whose attention-mask total is negative cannot make the
`try:` body succeed: the Prometheus counter increment raises first. -/
theorem inferTry_neg_tokens (cfg : Config) (fill : α)
    (eng : BertInferenceEngine α) (elapsed : Nat) (m : Metrics)
    (inputs : InputsDict) (ids mask : Tensor2 Int)
    (hids : dictGet inputs "input_ids" = some ids)
    (hmask : dictGet inputs "attention_mask" = some mask)
    (hneg : sum2 mask < 0) (r : InferResult α) (m2 : Metrics)
    (h : inferTry cfg fill eng elapsed m inputs = (.ok r, m2)) : False := by
  unfold inferTry at h
  rw [hids, hmask] at h
  dsimp only at h
  split at h
  · simp at h
  · rw [if_pos hneg] at h
    simp at h

/-- The exact success value of the `try:` body on the loaded path. -/
theorem inferTry_loaded_ok_eq (cfg : Config) (fill : α)
    (eng : BertInferenceEngine α) (elapsed : Nat) (m : Metrics)
    (inputs : InputsDict) (ids mask tti : Tensor2 Int) (s : Session α)
    (t3 : Tensor3 α) (p : Option (Tensor2 α))
    (hids : dictGet inputs "input_ids" = some ids)
    (hmask : dictGet inputs "attention_mask" = some mask)
    (htti : dictGet inputs "token_type_ids" = some tti)
    (hs : eng.session = some s)
    (hrun : s.run ids mask tti = .ok (t3, p))
    (hnn : ¬sum2 mask < 0) :
    inferTry cfg fill eng elapsed m inputs =
      (.ok { last_hidden_state := t3, pooler_output := p,
             latency_ms := elapsed * 1000, batch_size := ids.length,
             tokens_processed := sum2 mask },
       (((m.incRequestCount "success" eng.model_name).observeLatency
           eng.model_name elapsed).incTokens eng.model_name
           (sum2 mask).toNat).observeBatch eng.model_name ids.length) := by
  unfold inferTry
  simp only [hids, hmask, hs, htti, hrun]
  rw [if_neg hnn]

/-- The exact success value of the `try:` body on the mock path. -/
theorem inferTry_mock_ok_eq (cfg : Config) (fill : α)
    (eng : BertInferenceEngine α) (elapsed : Nat) (m : Metrics)
    (inputs : InputsDict) (ids mask : Tensor2 Int)
    (hids : dictGet inputs "input_ids" = some ids)
    (hmask : dictGet inputs "attention_mask" = some mask)
    (hM : eng.session = none)
    (hnn : ¬sum2 mask < 0) :
    inferTry cfg fill eng elapsed m inputs =
      (.ok { last_hidden_state := List.replicate ids.length
               (List.replicate cfg.maxSeqLen (List.replicate 768 fill)),
             pooler_output :=
               some (List.replicate ids.length (List.replicate 768 fill)),
             latency_ms := elapsed * 1000, batch_size := ids.length,
             tokens_processed := sum2 mask },
       (((m.incRequestCount "success" eng.model_name).observeLatency
           eng.model_name elapsed).incTokens eng.model_name
           (sum2 mask).toNat).observeBatch eng.model_name ids.length) := by
  unfold inferTry
  simp only [hids, hmask, hM]
  rw [if_neg hnn]

/-- A replicated tensor has exactly the replicated 3-d shape. -/
theorem isShape3_replicate (b s h : Nat) (x : α) :
    isShape3 (List.replicate b (List.replicate s (List.replicate h x))) b s h =
      true := by
  simp [isShape3, List.all_eq_true, List.mem_replicate]

/-- A replicated tensor has exactly the replicated 2-d shape. -/
theorem isShape2_replicate (b h : Nat) (x : α) :
    isShape2 (List.replicate b (List.replicate h x)) b h = true := by
  simp [isShape2, List.all_eq_true, List.mem_replicate]

set_option maxRecDepth 100000 in
/-- Counterexample to claim C4 as stated: on the same input batch of
shape `[1, 2]` (a pre-tokenized request shorter than the configured
`MAX_SEQUENCE_LENGTH = 512`), mock mode produces token embeddings of
shape `[1, 512, 768]` while a loaded BERT-contract session produces
`[1, 2, 768]` — the shapes are not identical. -/
theorem infer_mock_loaded_shape_counterexample :
    (infer ⟨512⟩ (0 : Int) { model_path := "/m" } 1 Metrics.init
        (mkInputs [[101, 102]] [[1, 1]] [[0, 0]])).1.map
        (fun r => dims3 r.last_hidden_state) = .ok (1, 512, 768) ∧
    (infer ⟨512⟩ (0 : Int)
        { model_path := "/m",
          session := some ⟨fun ids _ _ =>
            .ok (ids.map (fun row => row.map (fun _ => List.replicate 768 (0 : Int))),
                 some (ids.map (fun _ => List.replicate 768 (0 : Int))))⟩ }
        1 Metrics.init (mkInputs [[101, 102]] [[1, 1]] [[0, 0]])).1.map
        (fun r => dims3 r.last_hidden_state) = .ok (1, 2, 768) ∧
    ((1, 512, 768) : Nat × Nat × Nat) ≠ (1, 2, 768) :=
  ⟨rfl, rfl, by decide⟩

/-- Claim C4 (amended): mock-mode and loaded-mode executions of `infer`
produce token-embedding and pooled-output results of identical shape
whenever the input's sequence length equals the configured maximum
sequence length — as is the case for every tokenizer-produced batch,
since the tokenizer pads to that length.  Both then yield token
embeddings `[batch_size, max_sequence_length, 768]` and pooled output
`[batch_size, 768]` (shape equivalence only); for pre-tokenized inputs
of a different sequence length, mock mode instead produces
max-sequence-length token embeddings. -/
theorem infer_mock_loaded_shape_equivalence_at_max_len (cfg : Config)
    (fill : α) (engM engL : BertInferenceEngine α) (e1 e2 : Nat)
    (mA mB : Metrics) (inputs : InputsDict) (ids mask tti : Tensor2 Int)
    (b : Nat) (s : Session α) (t3 : Tensor3 α) (t2 : Tensor2 α)
    (rm rl : InferResult α) (mm ml : Metrics)
    (hids : dictGet inputs "input_ids" = some ids)
    (hmask : dictGet inputs "attention_mask" = some mask)
    (htti : dictGet inputs "token_type_ids" = some tti)
    (hb : ids.length = b)
    (hM : engM.session = none)
    (hL : engL.session = some s)
    (hrun : s.run ids mask tti = .ok (t3, some t2))
    (hsh3 : isShape3 t3 b cfg.maxSeqLen 768 = true)
    (hsh2 : isShape2 t2 b 768 = true)
    (hmock : infer cfg fill engM e1 mA inputs = (.ok rm, mm))
    (hload : infer cfg fill engL e2 mB inputs = (.ok rl, ml)) :
    isShape3 rm.last_hidden_state b cfg.maxSeqLen 768 = true ∧
    isShape3 rl.last_hidden_state b cfg.maxSeqLen 768 = true ∧
    rm.pooler_output = some (List.replicate b (List.replicate 768 fill)) ∧
    isShape2 (List.replicate b (List.replicate 768 fill)) b 768 = true ∧
    rl.pooler_output = some t2 ∧
    isShape2 t2 b 768 = true := by
  subst hb
  by_cases hnn : sum2 mask < 0
  · exfalso
    obtain ⟨m1, hTry, -⟩ := infer_ok_inferTry cfg fill engM e1 mA inputs rm mm hmock
    exact inferTry_neg_tokens cfg fill engM e1 _ inputs ids mask
      hids hmask hnn rm m1 hTry
  · obtain ⟨m1, hTryM, -⟩ := infer_ok_inferTry cfg fill engM e1 mA inputs rm mm hmock
    obtain ⟨m2, hTryL, -⟩ := infer_ok_inferTry cfg fill engL e2 mB inputs rl ml hload
    rw [inferTry_mock_ok_eq cfg fill engM e1 _ inputs ids mask hids hmask hM hnn]
      at hTryM
    rw [inferTry_loaded_ok_eq cfg fill engL e2 _ inputs ids mask tti s t3
      (some t2) hids hmask htti hL hrun hnn] at hTryL
    rw [Prod.ext_iff] at hTryM hTryL
    simp only [Except.ok.injEq] at hTryM hTryL
    obtain ⟨hrm, -⟩ := hTryM
    obtain ⟨hrl, -⟩ := hTryL
    subst hrm
    subst hrl
    exact ⟨isShape3_replicate _ _ _ _, hsh3, rfl, isShape2_replicate _ _ _,
      rfl, hsh2⟩

set_option maxRecDepth 100000 in
/-- Witness for the amended C4: a 1×2 batch with the configured maximum
sequence length also equal to 2; mock and loaded shapes agree at
`[1, 2, 768]` and `[1, 768]`. -/
theorem infer_mock_loaded_shape_equivalence_witness :
    isShape3 (List.replicate 1 (List.replicate 2 (List.replicate 768 (0 : Int))))
      1 2 768 = true ∧
    isShape3 [[List.replicate 768 (0 : Int), List.replicate 768 (0 : Int)]]
      1 2 768 = true ∧
    some (List.replicate 1 (List.replicate 768 (0 : Int))) =
      some (List.replicate 1 (List.replicate 768 (0 : Int))) ∧
    isShape2 (List.replicate 1 (List.replicate 768 (0 : Int))) 1 768 = true ∧
    some [List.replicate 768 (0 : Int)] = some [List.replicate 768 (0 : Int)] ∧
    isShape2 [List.replicate 768 (0 : Int)] 1 768 = true :=
  infer_mock_loaded_shape_equivalence_at_max_len ⟨2⟩ 0
    { model_path := "/m" }
    { model_path := "/m",
      session := some ⟨fun _ _ _ =>
        .ok ([[List.replicate 768 (0 : Int), List.replicate 768 (0 : Int)]],
             some [List.replicate 768 (0 : Int)])⟩ }
    1 1 Metrics.init Metrics.init (mkInputs [[1, 2]] [[1, 1]] [[0, 0]])
    [[1, 2]] [[1, 1]] [[0, 0]] 1
    ⟨fun _ _ _ =>
      .ok ([[List.replicate 768 (0 : Int), List.replicate 768 (0 : Int)]],
           some [List.replicate 768 (0 : Int)])⟩
    [[List.replicate 768 (0 : Int), List.replicate 768 (0 : Int)]]
    [List.replicate 768 (0 : Int)]
    ⟨List.replicate 1 (List.replicate 2 (List.replicate 768 (0 : Int))),
     some (List.replicate 1 (List.replicate 768 (0 : Int))), 1000, 1, 2⟩
    ⟨[[List.replicate 768 (0 : Int), List.replicate 768 (0 : Int)]],
     some [List.replicate 768 (0 : Int)], 1000, 1, 2⟩
    (infer ⟨2⟩ (0 : Int) { model_path := "/m" } 1 Metrics.init
      (mkInputs [[1, 2]] [[1, 1]] [[0, 0]])).2
    (infer ⟨2⟩ (0 : Int)
      { model_path := "/m",
        session := some ⟨fun _ _ _ =>
          .ok ([[List.replicate 768 (0 : Int), List.replicate 768 (0 : Int)]],
               some [List.replicate 768 (0 : Int)])⟩ }
      1 Metrics.init (mkInputs [[1, 2]] [[1, 1]] [[0, 0]])).2
    rfl rfl rfl rfl rfl rfl rfl rfl rfl rfl rfl

/-- Counterexample to claim C6 as stated: with a loaded session that
raises, a batch with 2 attention-mask tokens leaves the tokens-processed
counter at 0 and the batch-size histogram empty — the two samples are
not recorded when execution fails, although their values were computed
before execution. -/
theorem infer_failure_metrics_counterexample :
    (infer ⟨512⟩ (0 : Int)
        { model_path := "/m",
          session := some ⟨fun _ _ _ => .error (.other "boom")⟩ }
        1 Metrics.init (mkInputs [[101, 102]] [[1, 1]] [[0, 0]])).1 =
      .error (.other "boom") ∧
    (infer ⟨512⟩ (0 : Int)
        { model_path := "/m",
          session := some ⟨fun _ _ _ => .error (.other "boom")⟩ }
        1 Metrics.init (mkInputs [[101, 102]] [[1, 1]] [[0, 0]])).2.tokensProcessed
        "bert-base-uncased" = 0 ∧
    (infer ⟨512⟩ (0 : Int)
        { model_path := "/m",
          session := some ⟨fun _ _ _ => .error (.other "boom")⟩ }
        1 Metrics.init (mkInputs [[101, 102]] [[1, 1]] [[0, 0]])).2.batchSizeObs
        "bert-base-uncased" = [] ∧
    sum2 [[1, 1]] = 2 ∧ [[(101 : Int), 102]].length = 1 :=
  ⟨rfl, rfl, rfl, rfl, rfl⟩

/-- Claim C6 (amended): `batch_size` and `tokens_processed` are computed
before model execution, but the tokens-processed counter increment and
the batch-size histogram observation are recorded only when execution
succeeds; when the loaded session raises, those two metric families are
unchanged and only the error counter is recorded. -/
theorem infer_counts_recorded_only_on_success (cfg : Config) (fill : α)
    (eng : BertInferenceEngine α) (elapsed : Nat) (m : Metrics)
    (inputs : InputsDict) (ids mask tti : Tensor2 Int) (s : Session α)
    (hids : dictGet inputs "input_ids" = some ids)
    (hmask : dictGet inputs "attention_mask" = some mask)
    (htti : dictGet inputs "token_type_ids" = some tti)
    (hs : eng.session = some s) :
    (∀ exn : PyExn, s.run ids mask tti = .error exn →
      (infer cfg fill eng elapsed m inputs).2.tokensProcessed eng.model_name =
        m.tokensProcessed eng.model_name ∧
      (infer cfg fill eng elapsed m inputs).2.batchSizeObs eng.model_name =
        m.batchSizeObs eng.model_name ∧
      (infer cfg fill eng elapsed m inputs).2.requestCount "error" eng.model_name =
        m.requestCount "error" eng.model_name + 1) ∧
    (∀ (t3 : Tensor3 α) (p : Option (Tensor2 α)) (r : InferResult α)
      (m2 : Metrics), ¬sum2 mask < 0 → s.run ids mask tti = .ok (t3, p) →
      infer cfg fill eng elapsed m inputs = (.ok r, m2) →
      m2.tokensProcessed eng.model_name =
        m.tokensProcessed eng.model_name + (sum2 mask).toNat ∧
      m2.batchSizeObs eng.model_name =
        ids.length :: m.batchSizeObs eng.model_name) := by
  constructor
  · intro exn hrun
    have hbody := inferTry_run_error cfg fill eng elapsed
      (m.incActive eng.model_name) inputs ids mask tti s exn
      hids hmask htti hs hrun
    unfold infer
    dsimp only
    rw [hbody]
    refine ⟨rfl, rfl, ?_⟩
    simp [Metrics.decActive, Metrics.incRequestCount, Metrics.incActive]
  · intro t3 p r m2 hnn hrun hok
    obtain ⟨m1, hTry, hm2⟩ := infer_ok_inferTry cfg fill eng elapsed m inputs
      r m2 hok
    rw [inferTry_loaded_ok_eq cfg fill eng elapsed _ inputs ids mask tti s t3 p
      hids hmask htti hs hrun hnn] at hTry
    simp only [Prod.mk.injEq] at hTry
    obtain ⟨-, hm1⟩ := hTry
    rw [hm2, ← hm1]
    constructor
    · simp [Metrics.decActive, Metrics.observeBatch, Metrics.incTokens,
        Metrics.observeLatency, Metrics.incRequestCount, Metrics.incActive]
    · simp [Metrics.decActive, Metrics.observeBatch, Metrics.incTokens,
        Metrics.observeLatency, Metrics.incRequestCount, Metrics.incActive]

/-- Witness for the amended C6 on the failure branch: the counter and
histogram stay at their initial values while the error counter moves. -/
theorem infer_counts_recorded_only_on_success_witness :
    (infer ⟨512⟩ (0 : Int)
        { model_path := "/m",
          session := some ⟨fun _ _ _ => .error (.other "down")⟩ }
        1 Metrics.init (mkInputs [[7, 8]] [[1, 1]] [[0, 0]])).2.tokensProcessed
        "bert-base-uncased" =
      Metrics.init.tokensProcessed "bert-base-uncased" ∧
    (infer ⟨512⟩ (0 : Int)
        { model_path := "/m",
          session := some ⟨fun _ _ _ => .error (.other "down")⟩ }
        1 Metrics.init (mkInputs [[7, 8]] [[1, 1]] [[0, 0]])).2.batchSizeObs
        "bert-base-uncased" =
      Metrics.init.batchSizeObs "bert-base-uncased" ∧
    (infer ⟨512⟩ (0 : Int)
        { model_path := "/m",
          session := some ⟨fun _ _ _ => .error (.other "down")⟩ }
        1 Metrics.init (mkInputs [[7, 8]] [[1, 1]] [[0, 0]])).2.requestCount
        "error" "bert-base-uncased" =
      Metrics.init.requestCount "error" "bert-base-uncased" + 1 :=
  (infer_counts_recorded_only_on_success ⟨512⟩ 0
    { model_path := "/m",
      session := some ⟨fun _ _ _ => .error (.other "down")⟩ }
    1 Metrics.init (mkInputs [[7, 8]] [[1, 1]] [[0, 0]])
    [[7, 8]] [[1, 1]] [[0, 0]] ⟨fun _ _ _ => .error (.other "down")⟩
    rfl rfl rfl rfl).1 (.other "down") rfl

/-- Counterexample to claim C7 as stated: a pre-tokenized request
missing `attention_mask` makes `predict` raise a bare `KeyError`, which
FastAPI surfaces as a 500 server error, not as an `InvalidInput` client
error (the metrics are untouched, as the claim also says). -/
theorem predict_malformed_inputs_counterexample :
    predict ⟨512⟩ (0 : Int) (some { model_path := "/m" }) 1 Metrics.init
      { inputs := some [("input_ids", [[101]])] } =
      (.error (.keyError "attention_mask"), Metrics.init) ∧
    isClientError (.keyError "attention_mask") = false ∧
    httpStatusOf (.keyError "attention_mask") = 500 :=
  ⟨rfl, rfl, rfl⟩

/-- Claim C7 (amended): a predict request whose truthy pre-tokenized
`inputs` object is missing one of the three required tensor keys fails
with an unhandled `KeyError` for the first missing key (in lookup order
`input_ids`, `attention_mask`, `token_type_ids`), surfaced to the caller
as a 500 server error rather than a client error, with no executor
metric side effects (the metric state is returned unchanged). -/
theorem predict_malformed_inputs_server_error (cfg : Config) (fill : α)
    (eng : BertInferenceEngine α) (elapsed : Nat) (m : Metrics)
    (req : InferenceRequest) (d : InputsDict) (k : String)
    (hin : req.inputs = some d) (hne : d.isEmpty = false)
    (hmiss : firstMissingKey d = some k) :
    predict cfg fill (some eng) elapsed m req = (.error (.keyError k), m) ∧
    isClientError (.keyError k) = false ∧
    httpStatusOf (.keyError k) = 500 := by
  refine ⟨?_, rfl, rfl⟩
  unfold firstMissingKey at hmiss
  split at hmiss
  next heq =>
    simp only [Option.some.injEq] at hmiss
    subst hmiss
    simp [predict, selectInputs, truthyInputs, hin, hne, heq]
  next ids' heq =>
    split at hmiss
    next heq2 =>
      simp only [Option.some.injEq] at hmiss
      subst hmiss
      simp [predict, selectInputs, truthyInputs, hin, hne, heq, heq2]
    next mask' heq2 =>
      split at hmiss
      next heq3 =>
        simp only [Option.some.injEq] at hmiss
        subst hmiss
        simp [predict, selectInputs, truthyInputs, hin, hne, heq, heq2, heq3]
      next tti' heq3 =>
        simp at hmiss

/-- Witness for the amended C7: a request missing only `token_type_ids`
fails with `KeyError("token_type_ids")` and a 500 status. -/
theorem predict_malformed_inputs_server_error_witness :
    predict (α := Int) ⟨512⟩ 0 (some { model_path := "/m" }) 1 Metrics.init
      { inputs := some [("input_ids", [[1]]), ("attention_mask", [[1]])] } =
      (.error (.keyError "token_type_ids"), Metrics.init) ∧
    isClientError (.keyError "token_type_ids") = false ∧
    httpStatusOf (.keyError "token_type_ids") = 500 :=
  predict_malformed_inputs_server_error ⟨512⟩ 0 { model_path := "/m" } 1
    Metrics.init
    { inputs := some [("input_ids", [[1]]), ("attention_mask", [[1]])] }
    [("input_ids", [[1]]), ("attention_mask", [[1]])] "token_type_ids"
    rfl rfl rfl

/-- Claim C5: input-shape precedence in `predict` is pre-tokenized
`inputs` over batch `texts` over single `text`: a request carrying a
well-formed non-empty `inputs` object is normalized from it exclusively,
whatever `texts` and `text` hold; with `inputs` falsy, a non-empty
`texts` wins over `text`; with both falsy, a non-empty `text` is used. -/
theorem predict_input_shape_precedence (cfg : Config)
    (eng : BertInferenceEngine α) (req : InferenceRequest) (d : InputsDict)
    (ids mask tti : Tensor2 Int)
    (hin : req.inputs = some d) (hne : d.isEmpty = false)
    (hids : dictGet d "input_ids" = some ids)
    (hmask : dictGet d "attention_mask" = some mask)
    (htti : dictGet d "token_type_ids" = some tti) :
    selectInputs cfg eng req = .ok (mkInputs ids mask tti) ∧
    (∀ (req2 : InferenceRequest) (ts : List String),
      truthyInputs req2.inputs = none → req2.texts = some ts →
      ts.isEmpty = false →
      selectInputs cfg eng req2 = tokenize eng ts cfg.maxSeqLen) ∧
    (∀ (req3 : InferenceRequest) (t : String),
      truthyInputs req3.inputs = none → truthyTexts req3.texts = none →
      req3.text = some t → (t = "") = False →
      selectInputs cfg eng req3 = tokenize eng [t] cfg.maxSeqLen) := by
  refine ⟨?_, ?_, ?_⟩
  · simp [selectInputs, truthyInputs, hin, hne, hids, hmask, htti]
  · intro req2 ts htr hts htsne
    simp [selectInputs, truthyTexts, htr, hts, htsne]
  · intro req3 t htr hts ht htne
    simp [selectInputs, truthyText, htr, hts, ht, htne]

/-- Witness for C5: a request supplying all three shapes at once is
normalized from `inputs` exclusively. -/
theorem predict_input_shape_precedence_witness :
    selectInputs (α := Int) ⟨512⟩ { model_path := "/m" }
      { text := some "hello", texts := some ["a", "b"],
        inputs := some (mkInputs [[7]] [[1]] [[0]]) } =
      .ok (mkInputs [[7]] [[1]] [[0]]) :=
  (predict_input_shape_precedence ⟨512⟩ { model_path := "/m" }
    { text := some "hello", texts := some ["a", "b"],
      inputs := some (mkInputs [[7]] [[1]] [[0]]) }
    (mkInputs [[7]] [[1]] [[0]]) [[7]] [[1]] [[0]]
    rfl rfl rfl rfl rfl).1

/-- Claim C9: a request whose `texts` field is the empty list and which
supplies no other input shape is rejected with the 400 "No input
provided" client error, not passed on as a zero-row batch; the executor
is never reached (metrics unchanged). -/
theorem predict_empty_texts_rejected (cfg : Config) (fill : α)
    (eng : BertInferenceEngine α) (elapsed : Nat) (m : Metrics)
    (req : InferenceRequest)
    (h1 : req.inputs = none) (h2 : req.texts = some [])
    (h3 : req.text = none) :
    predict cfg fill (some eng) elapsed m req =
      (.error (.httpException 400 "No input provided"), m) ∧
    isClientError (.httpException 400 "No input provided") = true := by
  constructor
  · simp [predict, selectInputs, truthyInputs, truthyTexts, truthyText,
      h1, h2, h3]
  · rfl

/-- Witness for C9 at the concrete request `{texts: []}`. -/
theorem predict_empty_texts_rejected_witness :
    predict (α := Int) ⟨512⟩ 0 (some { model_path := "/m" }) 1 Metrics.init
      { texts := some [] } =
      (.error (.httpException 400 "No input provided"), Metrics.init) :=
  (predict_empty_texts_rejected ⟨512⟩ 0 { model_path := "/m" } 1 Metrics.init
    { texts := some [] } rfl rfl rfl).1

/-- Claim C10: input-shape selection in `predict` tests Python
truthiness, not presence: an empty-but-present shape (`inputs = {}`,
`texts = []`, `text = ""`) is skipped exactly as if it were absent, so
selection falls through to the next shape in precedence order; and a
request whose only supplied shapes are all empty-but-present is rejected
with the 400 "No input provided" error. -/
theorem predict_truthiness_not_presence (cfg : Config)
    (eng : BertInferenceEngine α) :
    (∀ req : InferenceRequest, req.inputs = some [] →
      selectInputs cfg eng req = selectInputs cfg eng { req with inputs := none }) ∧
    (∀ req : InferenceRequest, req.texts = some [] →
      selectInputs cfg eng req = selectInputs cfg eng { req with texts := none }) ∧
    (∀ req : InferenceRequest, req.text = some "" →
      selectInputs cfg eng req = selectInputs cfg eng { req with text := none }) ∧
    (∀ (fill : α) (elapsed : Nat) (m : Metrics) (req : InferenceRequest),
      req.inputs = some [] → req.texts = some [] → req.text = some "" →
      predict cfg fill (some eng) elapsed m req =
        (.error (.httpException 400 "No input provided"), m)) := by
  refine ⟨?_, ?_, ?_, ?_⟩
  · intro req h
    simp [selectInputs, truthyInputs, h]
  · intro req h
    simp [selectInputs, truthyTexts, h]
  · intro req h
    simp [selectInputs, truthyText, h]
  · intro fill elapsed m req h1 h2 h3
    simp [predict, selectInputs, truthyInputs, truthyTexts, truthyText,
      h1, h2, h3]

/-- Witness for C10: the request with all three shapes present but empty
is rejected with the no-input 400 error. -/
theorem predict_truthiness_not_presence_witness :
    predict (α := Int) ⟨512⟩ 0 (some { model_path := "/m" }) 1 Metrics.init
      { text := some "", texts := some [], inputs := some [] } =
      (.error (.httpException 400 "No input provided"), Metrics.init) :=
  (predict_truthiness_not_presence (α := Int) ⟨512⟩
    { model_path := "/m" }).2.2.2 0 1 Metrics.init
    { text := some "", texts := some [], inputs := some [] } rfl rfl rfl

end InferenceServer
